import Mathlib

/-!
# Verification of the AI study-plan generation workflow

This development embeds the AI-education-assistant repository's study-plan
generation workflow (request validator, external AI adapter, response parser,
plan persister, unified response envelope) together with two pieces of the
React frontend (the axios request interceptor of `ApiService` and the
average-duration statistic of `StudyPlansPage`), and proves the spec's stated
properties about them.

The backend workflow itself is present in the repository only as the design
document and SQL DDL (no Python sources are supplied), so those definitions
are modelled from the specification's own words; the frontend definitions are
translated directly from the TypeScript sources.
-/

namespace AiEdu

/-! ## Data model (spec §3) -/

/-- A single study task inside a week (spec §3, Task). -/
structure Task where
  title : String
  description : Option String
  estimated_hours : Option Int
  priority : Option String
  resources : List String
deriving Repr, DecidableEq

/-- One week of the generated plan (spec §3, WeekPlan). -/
structure WeekPlan where
  week_number : Nat
  focus : Option String
  tasks : List Task
deriving Repr, DecidableEq

/-- The structured plan produced by the response parser (spec §3,
GeneratedStudyPlan). -/
structure GeneratedStudyPlan where
  title : String
  overview : String
  objectives : List String
  weeks : List WeekPlan
deriving Repr, DecidableEq

/-- The ephemeral generation request (spec §3, StudyPlanRequest). -/
structure StudyPlanRequest where
  subject : String
  time_frame : String
  current_level : String
  weekly_hours : Int
  goal_tags : List String
deriving Repr, DecidableEq

/-- The three recognized levels (spec §3: enum beginner/intermediate/advanced). -/
def recognizedLevels : List String := ["beginner", "intermediate", "advanced"]

/-! ## Error taxonomy (spec §7) -/

/-- Modelled from the spec: the error taxonomy of §7.  The backend that raises
these errors is not among the supplied sources; the five kinds are taken
verbatim from the specification. -/
inductive ErrKind where
  | validationError
  | upstreamServiceError
  | upstreamAuthError
  | unparseableResponseError
  | persistenceError
deriving Repr, DecidableEq

/-- Modelled from the spec: each error kind is surfaced with a distinct
non-zero business code in the unified envelope (spec §7, design doc §7.4:
"業務错误码，非0"; concrete values are not fixed by the sources). -/
def errCode : ErrKind → Nat
  | .validationError => 1001
  | .upstreamServiceError => 1002
  | .upstreamAuthError => 1003
  | .unparseableResponseError => 1004
  | .persistenceError => 1005

/-- Modelled from the spec: human-readable message per error kind (spec §7). -/
def errMessage : ErrKind → String
  | .validationError => "Invalid request parameters."
  | .upstreamServiceError => "Upstream AI service failure."
  | .upstreamAuthError => "Upstream AI service authentication failed."
  | .unparseableResponseError => "Unprocessable AI response."
  | .persistenceError => "Plan generated but could not be saved."

/-! ## Vendor payloads and the response parser (spec §4.3) -/

/-- A JSON value, used to model the vendor's structured payload. -/
inductive Json where
  | null
  | bool (b : Bool)
  | num (n : Int)
  | str (s : String)
  | arr (elems : List Json)
  | obj (fields : List (String × Json))
deriving Repr

/-- The raw payload returned by the external completion API: either text that
is not valid JSON, or a JSON document. -/
inductive RawPayload where
  | notJson
  | json (j : Json)
deriving Repr

/-- Field lookup on a JSON value; non-objects have no fields. -/
def Json.get : Json → String → Option Json
  | .obj fields, k => fields.lookup k
  | _, _ => none

/-- Extract a string, if the value is one. -/
def Json.asString : Json → Option String
  | .str s => some s
  | _ => none

/-- Extract an integer, if the value is one. -/
def Json.asInt : Json → Option Int
  | .num n => some n
  | _ => none

/-- Extract an array's elements, if the value is one. -/
def Json.asArr : Json → Option (List Json)
  | .arr elems => some elems
  | _ => none

/-- Modelled from the spec: task fields are read leniently — §4.3 lists only
`title`/`weeks` presence and positive `week_number` as parse-failure causes,
so task parsing fills defaults for absent or ill-typed fields. -/
def parseTask (j : Json) : Task :=
  { title := ((j.get "title").bind Json.asString).getD ""
    description := (j.get "description").bind Json.asString
    estimated_hours := (j.get "estimated_hours").bind Json.asInt
    priority := (j.get "priority").bind Json.asString
    resources := (((j.get "resources").bind Json.asArr).getD []).filterMap Json.asString }

/-- Modelled from the spec: one week parses exactly when it carries an integer
`week_number ≥ 1` (spec §4.3: a week with a non-positive week_number fails the
parse); `focus` and `tasks` are optional. -/
def parseWeek (j : Json) : Option WeekPlan :=
  match (j.get "week_number").bind Json.asInt with
  | some n =>
      if 1 ≤ n then
        some { week_number := n.toNat
               focus := (j.get "focus").bind Json.asString
               tasks := (((j.get "tasks").bind Json.asArr).getD []).map parseTask }
      else none
  | none => none

/-- Modelled from the spec: parse every element of the `weeks` array,
failing if any week fails. -/
def parseWeeks : List Json → Option (List WeekPlan)
  | [] => some []
  | j :: rest =>
      match parseWeek j, parseWeeks rest with
      | some w, some ws => some (w :: ws)
      | _, _ => none

/-- Modelled from the spec: the response parser of §4.3.  It fails with
`UnparseableResponseError` when the payload is not valid JSON, is missing the
required fields `title` or `weeks`, or contains a week with a non-positive
week_number; otherwise it returns a fully populated GeneratedStudyPlan. -/
def parsePlan : RawPayload → Except ErrKind GeneratedStudyPlan
  | .notJson => .error .unparseableResponseError
  | .json j =>
      match (j.get "title").bind Json.asString, (j.get "weeks").bind Json.asArr with
      | some title, some ws =>
          match parseWeeks ws with
          | some weeks =>
              .ok { title := title
                    overview := ((j.get "overview").bind Json.asString).getD ""
                    objectives :=
                      (((j.get "objectives").bind Json.asArr).getD []).filterMap Json.asString
                    weeks := weeks }
          | none => .error .unparseableResponseError
      | _, _ => .error .unparseableResponseError

/-- The weeks array of a JSON payload (empty when absent or ill-typed). -/
def responseWeeks (j : Json) : List Json :=
  ((j.get "weeks").bind Json.asArr).getD []

/-- A week element is well formed when it carries an integer week_number ≥ 1. -/
def weekOk (j : Json) : Bool :=
  match (j.get "week_number").bind Json.asInt with
  | some n => decide (1 ≤ n)
  | none => false

/-- A syntactically valid vendor response: a string `title`, an array `weeks`,
and every week well formed (spec §4.3's expected structure). -/
def wellFormedResponse (j : Json) : Bool :=
  ((j.get "title").bind Json.asString).isSome
    && (match (j.get "weeks").bind Json.asArr with
        | some ws => ws.all weekOk
        | none => false)

/-! ## Request validator (spec §4.1) -/

/-- Modelled from the spec: the request validator of §4.1 rejects with a
validation error when subject is empty, weekly_hours is outside [1, 80], or
current_level is not one of the three recognized levels; it has no side
effects (it is a pure function). -/
def validateRequest (req : StudyPlanRequest) : Option ErrKind :=
  if req.subject = "" then some .validationError
  else if req.weekly_hours < 1 ∨ 80 < req.weekly_hours then some .validationError
  else if req.current_level ∉ recognizedLevels then some .validationError
  else none

/-! ## Persistence (spec §4.4, src/sql/init.sql `study_plans` / `study_tasks`) -/

/-- One persisted study-plan row together with its nested week/task structure
(the `study_plans` row of src/sql/init.sql plus its `study_tasks` children,
flattened into the nested shape the workflow writes in one transaction). -/
structure StoredPlan where
  id : Nat
  user_id : Nat
  title : String
  overview : String
  objectives : List String
  weeks : List WeekPlan
  is_ai_generated : Bool
deriving Repr, DecidableEq

/-- The study-plan store: an AUTO_INCREMENT counter and the stored rows,
mirroring the `study_plans` table of src/sql/init.sql. -/
structure Db where
  nextId : Nat
  rows : List StoredPlan
deriving Repr, DecidableEq

/-- Modelled from the spec: the plan persister of §4.4 creates one StudyPlan
record (marked AI-generated) and its nested week/task structure in a single
transaction, returning the new record together with its identifier. -/
def persistPlan (db : Db) (uid : Nat) (plan : GeneratedStudyPlan) : Db × Nat :=
  (⟨db.nextId + 1,
    db.rows ++ [{ id := db.nextId
                  user_id := uid
                  title := plan.title
                  overview := plan.overview
                  objectives := plan.objectives
                  weeks := plan.weeks
                  is_ai_generated := true }]⟩,
   db.nextId)

/-- Re-read a persisted plan by identifier. -/
def readPlan (db : Db) (id : Nat) : Option StoredPlan :=
  db.rows.find? (fun r => r.id == id)

/-! ## Unified response envelope (spec §6, design doc §7.4, ApiResponse) -/

/-- The success payload of the generation endpoint (spec §6): on success
`saved_plan_id` is present; when the plan was generated but storage failed
the plan data is still carried, without a saved id (spec §4.4 failure mode). -/
structure PlanData where
  plan_title : String
  overview : String
  learning_objectives : List String
  weekly_schedule : List WeekPlan
  saved_plan_id : Option Nat
deriving Repr, DecidableEq

/-- The unified `{code, message, data}` envelope (ApiResponse in
src/frontend/src/services/api.ts; design doc §7.4: code 0 on success,
non-zero business code on failure). -/
structure Envelope where
  code : Nat
  message : String
  data : Option PlanData
deriving Repr, DecidableEq

/-- The success envelope (code 0, design doc §7.4). -/
def successEnvelope (d : PlanData) : Envelope :=
  { code := 0, message := "Success", data := some d }

/-- An error envelope carrying the kind's distinct non-zero code. -/
def errEnvelope (e : ErrKind) (d : Option PlanData) : Envelope :=
  { code := errCode e, message := errMessage e, data := d }

/-- The success payload built from a parsed plan. -/
def planData (plan : GeneratedStudyPlan) (savedId : Option Nat) : PlanData :=
  { plan_title := plan.title
    overview := plan.overview
    learning_objectives := plan.objectives
    weekly_schedule := plan.weeks
    saved_plan_id := savedId }

/-! ## Per-request state machine (spec §4.4) -/

/-- Modelled from the spec: the per-request phases
`Validating → Calling-AI → Parsing → Persisting → Done`, with a single
`Failed(reason)` terminal (spec §4.4). -/
inductive Phase where
  | validating
  | callingAI
  | parsing
  | persisting
  | done
  | failed (e : ErrKind)
deriving Repr, DecidableEq

/-- Modelled from the spec: the step relation of the per-request state
machine; control flow is strictly linear (spec §2, §4.4), each phase either
advances to the next phase or fails with the error kind that phase raises. -/
inductive Step : Phase → Phase → Prop
  | validateOk : Step .validating .callingAI
  | validateFail : Step .validating (.failed .validationError)
  | callOk : Step .callingAI .parsing
  | callServiceFail : Step .callingAI (.failed .upstreamServiceError)
  | callAuthFail : Step .callingAI (.failed .upstreamAuthError)
  | parseOk : Step .parsing .persisting
  | parseFail : Step .parsing (.failed .unparseableResponseError)
  | persistOk : Step .persisting .done
  | persistFail : Step .persisting (.failed .persistenceError)

/-- Forward rank of a phase: both terminals rank above every working phase. -/
def Phase.rank : Phase → Nat
  | .validating => 0
  | .callingAI => 1
  | .parsing => 2
  | .persisting => 3
  | .done => 4
  | .failed _ => 5

/-! ## The generation workflow (spec §2, §4) -/

/-- The outcome of the single outbound call to the external completion API
(spec §4.2): the raw payload, a network/timeout/non-2xx failure, or an
authentication failure. -/
inductive VendorOutcome where
  | ok (raw : RawPayload)
  | serviceFailure
  | authFailure

/-- The environment a request runs against: what the vendor answers, and
whether the storage write fails (spec §4.2, §4.4 failure modes). -/
structure Env where
  vendor : StudyPlanRequest → VendorOutcome
  storageFails : Bool

/-- The observables of one request: the envelope returned to the caller, the
resulting store, the number of outbound vendor calls, the number of
persistence attempts, and the sequence of phases visited. -/
structure RunResult where
  envelope : Envelope
  db : Db
  vendorCalls : Nat
  persistCalls : Nat
  trace : List Phase

/-- Modelled from the spec: the strictly linear generation workflow of §2 —
validate → call external API → parse → persist → respond — with the failure
handling of §4 and §7.  The backend implementing it is not among the supplied
sources. -/
def runGenerate (env : Env) (db : Db) (uid : Nat) (req : StudyPlanRequest) :
    RunResult :=
  match validateRequest req with
  | some e =>
      ⟨errEnvelope e none, db, 0, 0, [.validating, .failed e]⟩
  | none =>
      match env.vendor req with
      | .serviceFailure =>
          ⟨errEnvelope .upstreamServiceError none, db, 1, 0,
           [.validating, .callingAI, .failed .upstreamServiceError]⟩
      | .authFailure =>
          ⟨errEnvelope .upstreamAuthError none, db, 1, 0,
           [.validating, .callingAI, .failed .upstreamAuthError]⟩
      | .ok raw =>
          match parsePlan raw with
          | .error e =>
              ⟨errEnvelope e none, db, 1, 0,
               [.validating, .callingAI, .parsing, .failed e]⟩
          | .ok plan =>
              if env.storageFails then
                ⟨errEnvelope .persistenceError (some (planData plan none)), db, 1, 1,
                 [.validating, .callingAI, .parsing, .persisting,
                  .failed .persistenceError]⟩
              else
                let inserted := persistPlan db uid plan
                ⟨successEnvelope (planData plan (some inserted.2)), inserted.1, 1, 1,
                 [.validating, .callingAI, .parsing, .persisting, .done]⟩

/-! ## Frontend: the ApiService request interceptor
(src/frontend/src/services/api.ts, constructor) -/

/-- JavaScript string truthiness: a string is truthy iff it is non-empty. -/
def jsTruthyStr (s : String) : Bool := s ≠ ""

/-- A request configuration, reduced to its header map. -/
structure AxiosConfig where
  headers : List (String × String)
deriving Repr, DecidableEq

/-- Assignment `headers[k] = v` in JavaScript: overwrite any entry for `k`. -/
def setHeader (hs : List (String × String)) (k v : String) :
    List (String × String) :=
  (k, v) :: hs.filter (fun p => p.1 ≠ k)

/-- Read a header. -/
def getHeader (hs : List (String × String)) (k : String) : Option String :=
  hs.lookup k

/-- The request interceptor installed in the `ApiService` constructor
(src/frontend/src/services/api.ts lines 32-44): it reads
`localStorage.getItem('access_token')` (`none` when absent) and, when that
value is truthy, sets the `Authorization` header to `"Bearer " ++ token`. -/
def requestInterceptor (storage : Option String) (config : AxiosConfig) :
    AxiosConfig :=
  match storage with
  | some token =>
      if jsTruthyStr token then
        { headers := setHeader config.headers "Authorization" ("Bearer " ++ token) }
      else config
  | none => config

/-! ## Frontend: the average-duration statistic
(src/unnamed/part_003, StudyPlansPage, lines 293-303) -/

/-- A JavaScript value as it can appear in the `estimated_duration` field at
runtime: `undefined` (field missing or the record itself nullish), `null`,
`NaN` (any non-numeric value under `Number` coercion), or a finite number. -/
inductive JsVal where
  | undef
  | null
  | nan
  | num (q : ℚ)
deriving Repr, DecidableEq

/-- JavaScript `x ?? d`: substitute `d` for `undefined` and `null` only. -/
def jsNullish (v d : JsVal) : JsVal :=
  match v with
  | .undef => d
  | .null => d
  | _ => v

/-- JavaScript `Number(x)` on the values above: `undefined ↦ NaN`,
`null ↦ 0`, numbers unchanged. -/
def jsToNumber : JsVal → JsVal
  | .undef => .nan
  | .null => .num 0
  | .nan => .nan
  | .num q => .num q

/-- JavaScript `x || d`: `d` when `x` is falsy (`undefined`, `null`, `NaN`,
`0`), otherwise `x`. -/
def jsOr (v d : JsVal) : JsVal :=
  match v with
  | .undef => d
  | .null => d
  | .nan => d
  | .num q => if q = 0 then d else .num q

/-- JavaScript `+` after `Number` coercion of both sides; `NaN` propagates. -/
def jsAdd (v w : JsVal) : JsVal :=
  match jsToNumber v, jsToNumber w with
  | .num a, .num b => .num (a + b)
  | _, _ => .nan

/-- JavaScript `/` after `Number` coercion; a zero divisor yields a
non-finite result (modelled by the non-number constructor — the statistic
never divides by zero, see `avgDurationStat`). -/
def jsDiv (v w : JsVal) : JsVal :=
  match jsToNumber v, jsToNumber w with
  | .num a, .num b => if b = 0 then .nan else .num (a / b)
  | _, _ => .nan

/-- JavaScript `Math.round`: `⌊x + 1/2⌋` on finite numbers, `NaN` otherwise. -/
def jsMathRound : JsVal → JsVal
  | .num q => .num ((⌊q + 1 / 2⌋ : ℤ) : ℚ)
  | _ => .nan

/-- The expression `Number(p?.estimated_duration ?? 0) || 0`, the per-plan
coercion used by both the total and the average statistic in StudyPlansPage. -/
def coerceDuration (v : JsVal) : JsVal :=
  jsOr (jsToNumber (jsNullish v (.num 0))) (.num 0)

/-- The reduce `plans.reduce((s, p) => s + (Number(p?.estimated_duration ?? 0) || 0), 0)`. -/
def sumDurations (durations : List JsVal) : JsVal :=
  durations.foldl (fun acc v => jsAdd acc (coerceDuration v)) (.num 0)

/-- The `平均时长` statistic of StudyPlansPage (src/unnamed/part_003 lines
296-301): `plans.length > 0 ? Math.round(sum / plans.length) : 0`, where each
plan contributes its coerced `estimated_duration`. -/
def avgDurationStat (durations : List JsVal) : JsVal :=
  if 0 < durations.length then
    jsMathRound (jsDiv (sumDurations durations) (.num durations.length))
  else .num 0

/-- The numeric reading the claim describes: missing or non-numeric values
count as 0, numbers count as themselves. -/
def toNumQ : JsVal → ℚ
  | .num q => q
  | _ => 0

/-! ## Concrete scenario data -/

/-- A well-formed vendor week list of `n` weeks, numbered 1..n. -/
def vendorWeeksJson (n : Nat) : List Json :=
  (List.range n).map (fun i =>
    .obj [("week_number", .num (i + 1)), ("focus", .str "focus"),
          ("tasks", .arr [])])

/-- The vendor payload of scenario A: a title, overview, one objective and 8
well-formed weeks. -/
def scenarioAPayload : Json :=
  .obj [("title", .str "Math Study Plan"), ("overview", .str "overview"),
        ("objectives", .arr [.str "algebra"]),
        ("weeks", .arr (vendorWeeksJson 8))]

/-- Scenario A environment: the vendor answers with the 8-week payload and
storage succeeds. -/
def scenarioAEnv : Env := ⟨fun _ => .ok (.json scenarioAPayload), false⟩

/-- Scenario A request: the input of spec §8, scenario A. -/
def scenarioAReq : StudyPlanRequest :=
  ⟨"Math", "8 weeks", "beginner", 10, ["algebra"]⟩

/-- An empty store whose AUTO_INCREMENT counter starts at 1. -/
def emptyDb : Db := ⟨1, []⟩

/-- Scenario environment where the vendor answers well but storage fails. -/
def storageFailEnv : Env := ⟨fun _ => .ok (.json scenarioAPayload), true⟩

/-- A default request configuration as `axios.create` builds it. -/
def baseConfig : AxiosConfig := ⟨[("Content-Type", "application/json")]⟩

/-! ## Helper lemmas -/

/-- The validator only ever reports a validation error. -/
lemma validateRequest_eq_some (req : StudyPlanRequest) (e : ErrKind)
    (h : validateRequest req = some e) : e = .validationError := by
  unfold validateRequest at h
  split at h
  · exact (Option.some.inj h).symm
  · split at h
    · exact (Option.some.inj h).symm
    · split at h
      · exact (Option.some.inj h).symm
      · exact Option.noConfusion h

/-- The parser only ever reports an unparseable-response error. -/
lemma parsePlan_eq_error (raw : RawPayload) (e : ErrKind)
    (h : parsePlan raw = .error e) : e = .unparseableResponseError := by
  unfold parsePlan at h
  rcases raw with _ | j
  · exact (Except.error.inj h).symm
  · rcases h1 : (j.get "title").bind Json.asString with _ | t <;>
      rcases h2 : (j.get "weeks").bind Json.asArr with _ | ws <;>
      simp only [h1, h2] at h
    · exact (Except.error.inj h).symm
    · exact (Except.error.inj h).symm
    · exact (Except.error.inj h).symm
    · rcases h3 : parseWeeks ws with _ | weeks <;> simp only [h3] at h
      · exact (Except.error.inj h).symm
      · exact Except.noConfusion h

/-- A well-formed week parses. -/
lemma parseWeek_isSome_of_weekOk (j : Json) (h : weekOk j = true) :
    (parseWeek j).isSome := by
  unfold weekOk at h
  unfold parseWeek
  rcases hn : (j.get "week_number").bind Json.asInt with _ | n <;>
    simp only [hn] at h ⊢
  · exact Bool.noConfusion h
  · simp only [decide_eq_true_eq] at h
    simp [h]

/-- A list of well-formed weeks parses with the same length. -/
lemma parseWeeks_all_ok (ws : List Json) (h : ws.all weekOk = true) :
    ∃ weeks, parseWeeks ws = some weeks ∧ weeks.length = ws.length := by
  induction ws with
  | nil => exact ⟨[], rfl, rfl⟩
  | cons j rest ih =>
      rw [List.all_cons, Bool.and_eq_true] at h
      obtain ⟨wp, hwp⟩ := Option.isSome_iff_exists.mp
        (parseWeek_isSome_of_weekOk j h.1)
      obtain ⟨weeks, hws, hlen⟩ := ih h.2
      exact ⟨wp :: weeks, by simp [parseWeeks, hwp, hws], by simp [hlen]⟩

/-- A week with a non-positive week_number makes the week list unparseable. -/
lemma parseWeeks_eq_none_of_bad (ws : List Json) (w : Json) (hw : w ∈ ws)
    (hnone : parseWeek w = none) : parseWeeks ws = none := by
  induction ws with
  | nil => cases hw
  | cons j rest ih =>
      rcases List.mem_cons.mp hw with h | h
      · subst h
        simp [parseWeeks, hnone]
      · unfold parseWeeks
        rw [ih h]
        rcases parseWeek j with _ | wp <;> rfl

/-! ## Claim theorems -/

/-- C1: persistence is all-or-nothing — every run either succeeds (code 0)
and appends exactly one StudyPlan row, or fails (non-zero code) and leaves
the store untouched. -/
theorem generation_all_or_nothing (env : Env) (db : Db) (uid : Nat)
    (req : StudyPlanRequest) :
    ((runGenerate env db uid req).envelope.code = 0 ∧
      ∃ r, (runGenerate env db uid req).db.rows = db.rows ++ [r]) ∨
    ((runGenerate env db uid req).envelope.code ≠ 0 ∧
      (runGenerate env db uid req).db = db) := by
  unfold runGenerate
  rcases hv : validateRequest req with _ | e <;> simp only [hv]
  · rcases hvend : env.vendor req with raw | _ | _ <;> simp only [hvend]
    · rcases hp : parsePlan raw with e | plan <;> simp only [hp]
      · right
        have he := parsePlan_eq_error raw e hp
        subst he
        simp [errEnvelope, errCode]
      · by_cases hs : env.storageFails
        · right
          simp [hs, errEnvelope, errCode]
        · left
          simp [hs, successEnvelope, persistPlan]
    · right
      simp [errEnvelope, errCode]
    · right
      simp [errEnvelope, errCode]
  · right
    have he := validateRequest_eq_some req e hv
    subst he
    simp [errEnvelope, errCode]

/-- C2: every request with an empty subject, weekly hours outside [1, 80],
or an unrecognized level is rejected with the validation-error code, with
zero outbound vendor calls and the store untouched. -/
theorem validator_rejects_before_outbound (req : StudyPlanRequest)
    (h : req.subject = "" ∨ req.weekly_hours < 1 ∨ 80 < req.weekly_hours ∨
      req.current_level ∉ recognizedLevels) :
    ∀ env db uid,
      (runGenerate env db uid req).envelope.code = errCode .validationError ∧
      (runGenerate env db uid req).vendorCalls = 0 ∧
      (runGenerate env db uid req).db = db := by
  have hv : validateRequest req = some .validationError := by
    unfold validateRequest
    rcases h with h | h | h | h
    · simp [h]
    · split
      · rfl
      · simp [if_pos (Or.inl h)]
    · split
      · rfl
      · simp [if_pos (Or.inr h)]
    · split
      · rfl
      · split
        · rfl
        · simp [h]
  intro env db uid
  unfold runGenerate
  rw [hv]
  exact ⟨rfl, rfl, rfl⟩

/-- Witness for C2: the request with an empty subject is rejected with the
validation-error code, zero vendor calls, and an unchanged store. -/
theorem validator_rejects_before_outbound_witness :
    (runGenerate ⟨fun _ => .serviceFailure, false⟩ ⟨1, []⟩ 7
        ⟨"", "8 weeks", "beginner", 10, []⟩).envelope.code =
      errCode .validationError ∧
    (runGenerate ⟨fun _ => .serviceFailure, false⟩ ⟨1, []⟩ 7
        ⟨"", "8 weeks", "beginner", 10, []⟩).vendorCalls = 0 ∧
    (runGenerate ⟨fun _ => .serviceFailure, false⟩ ⟨1, []⟩ 7
        ⟨"", "8 weeks", "beginner", 10, []⟩).db = ⟨1, []⟩ :=
  validator_rejects_before_outbound ⟨"", "8 weeks", "beginner", 10, []⟩
    (Or.inl rfl) ⟨fun _ => .serviceFailure, false⟩ ⟨1, []⟩ 7

/-- C3: every syntactically valid vendor response with at least one week of
week_number ≥ 1 parses into a GeneratedStudyPlan whose weeks list has the
response's week count. -/
theorem parser_preserves_week_count (j : Json)
    (h1 : wellFormedResponse j = true)
    (h2 : ∃ w ∈ responseWeeks j, weekOk w = true) :
    ∃ gp, parsePlan (.json j) = .ok gp ∧
      gp.weeks.length = (responseWeeks j).length := by
  unfold wellFormedResponse at h1
  rw [Bool.and_eq_true] at h1
  obtain ⟨ht, hw⟩ := h1
  obtain ⟨t, ht'⟩ := Option.isSome_iff_exists.mp ht
  rcases hws : (j.get "weeks").bind Json.asArr with _ | ws <;> rw [hws] at hw
  · exact Bool.noConfusion hw
  · obtain ⟨weeks, hpw, hlen⟩ := parseWeeks_all_ok ws hw
    refine ⟨⟨t, ((j.get "overview").bind Json.asString).getD "",
             (((j.get "objectives").bind Json.asArr).getD []).filterMap
               Json.asString, weeks⟩, ?_, ?_⟩
    · unfold parsePlan
      simp [ht', hws, hpw]
    · simpa [responseWeeks, hws] using hlen

/-- Witness for C3: a response with a title and one well-formed week parses
into a plan with exactly one week. -/
theorem parser_preserves_week_count_witness :
    wellFormedResponse (.obj [("title", .str "T"),
      ("weeks", .arr [.obj [("week_number", .num 1)]])]) = true ∧
    (∃ w ∈ responseWeeks (.obj [("title", .str "T"),
        ("weeks", .arr [.obj [("week_number", .num 1)]])]), weekOk w = true) ∧
    ∃ gp, parsePlan (.json (.obj [("title", .str "T"),
        ("weeks", .arr [.obj [("week_number", .num 1)]])])) = .ok gp ∧
      gp.weeks.length = (responseWeeks (.obj [("title", .str "T"),
        ("weeks", .arr [.obj [("week_number", .num 1)]])])).length :=
  ⟨by decide,
   ⟨Json.obj [("week_number", Json.num 1)], by exact List.Mem.head _, by decide⟩,
   parser_preserves_week_count _ (by decide)
     ⟨Json.obj [("week_number", Json.num 1)], by exact List.Mem.head _, by decide⟩⟩

/-- C4: a vendor payload that is not valid JSON, is missing title or weeks,
or contains a week with a non-positive week_number fails the parse with
UnparseableResponseError, and no persistence attempt is made in any run whose
vendor returns it. -/
theorem parser_rejects_malformed_payload (raw : RawPayload)
    (h : raw = .notJson ∨ ∃ j, raw = .json j ∧
      ((j.get "title").bind Json.asString = none ∨
       (j.get "weeks").bind Json.asArr = none ∨
       ∃ w ∈ responseWeeks j, ∃ n,
         (w.get "week_number").bind Json.asInt = some n ∧ n ≤ 0)) :
    parsePlan raw = .error .unparseableResponseError ∧
    ∀ env db uid req, env.vendor req = .ok raw →
      (runGenerate env db uid req).persistCalls = 0 ∧
      (runGenerate env db uid req).db = db := by
  have hp : parsePlan raw = .error .unparseableResponseError := by
    rcases h with h | ⟨j, hj, h⟩
    · subst h; rfl
    · subst hj
      unfold parsePlan
      rcases h with h | h | ⟨w, hw, n, hn, hnp⟩
      · rcases h2 : (j.get "weeks").bind Json.asArr with _ | ws <;>
          simp [h, h2]
      · rcases h1 : (j.get "title").bind Json.asString with _ | t <;>
          simp [h1, h]
      · rcases h2 : (j.get "weeks").bind Json.asArr with _ | ws
        · rcases h1 : (j.get "title").bind Json.asString with _ | t <;>
            simp [h1, h2]
        · have hwmem : w ∈ ws := by
            unfold responseWeeks at hw
            rw [h2] at hw
            simpa using hw
          have hwnone : parseWeek w = none := by
            unfold parseWeek
            simp only [hn]
            rw [if_neg (by omega : ¬ (1 : ℤ) ≤ n)]
          have h3 := parseWeeks_eq_none_of_bad ws w hwmem hwnone
          rcases h1 : (j.get "title").bind Json.asString with _ | t <;>
            simp [h1, h2, h3]
  refine ⟨hp, ?_⟩
  intro env db uid req hv
  unfold runGenerate
  rcases hval : validateRequest req with _ | e <;> simp only [hval]
  · simp [hv, hp]
  · simp

/-- Witness for C4: a payload missing the title field fails the parse, and a
run whose vendor returns it makes no persistence attempt and leaves the store
unchanged. -/
theorem parser_rejects_malformed_payload_witness :
    parsePlan (.json (.obj [("weeks", .arr [])])) =
      .error .unparseableResponseError ∧
    (runGenerate ⟨fun _ => .ok (.json (.obj [("weeks", .arr [])])), false⟩
        ⟨1, []⟩ 7 ⟨"Math", "8 weeks", "beginner", 10, []⟩).persistCalls = 0 ∧
    (runGenerate ⟨fun _ => .ok (.json (.obj [("weeks", .arr [])])), false⟩
        ⟨1, []⟩ 7 ⟨"Math", "8 weeks", "beginner", 10, []⟩).db = ⟨1, []⟩ :=
  ⟨(parser_rejects_malformed_payload _
      (Or.inr ⟨Json.obj [("weeks", Json.arr [])], rfl, Or.inl (by decide)⟩)).1,
   (parser_rejects_malformed_payload _
      (Or.inr ⟨Json.obj [("weeks", Json.arr [])], rfl, Or.inl (by decide)⟩)).2
     _ ⟨1, []⟩ 7 ⟨"Math", "8 weeks", "beginner", 10, []⟩ rfl⟩

/-- C5: persisting a GeneratedStudyPlan and re-reading the stored row by the
returned identifier yields the same objective count and week count. -/
theorem persist_read_roundtrip (db : Db) (uid : Nat) (gp : GeneratedStudyPlan)
    (h : ∀ r ∈ db.rows, r.id ≠ db.nextId) :
    ∃ row,
      readPlan (persistPlan db uid gp).1 (persistPlan db uid gp).2 = some row ∧
      row.objectives.length = gp.objectives.length ∧
      row.weeks.length = gp.weeks.length := by
  refine ⟨{ id := db.nextId, user_id := uid, title := gp.title,
            overview := gp.overview, objectives := gp.objectives,
            weeks := gp.weeks, is_ai_generated := true }, ?_, rfl, rfl⟩
  unfold readPlan persistPlan
  rw [List.find?_append]
  have hnone : db.rows.find? (fun r => r.id == db.nextId) = none := by
    rw [List.find?_eq_none]
    intro r hr
    simpa using h r hr
  rw [hnone]
  simp

/-- Witness for C5: persisting into an empty store and re-reading id 1 gives
back the stored plan with matching counts. -/
theorem persist_read_roundtrip_witness :
    ∃ row,
      readPlan (persistPlan ⟨1, []⟩ 7 ⟨"T", "O", ["a", "b"], []⟩).1
        (persistPlan ⟨1, []⟩ 7 ⟨"T", "O", ["a", "b"], []⟩).2 = some row ∧
      row.objectives.length =
        (GeneratedStudyPlan.mk "T" "O" ["a", "b"] []).objectives.length ∧
      row.weeks.length = (GeneratedStudyPlan.mk "T" "O" ["a", "b"] []).weeks.length :=
  persist_read_roundtrip ⟨1, []⟩ 7 ⟨"T", "O", ["a", "b"], []⟩
    (by intro r hr; cases hr)

/-! ## End-to-end scenario A (spec §8) -/

/-- C6: end-to-end success — the scenario-A input with an 8-week vendor
response yields the success envelope whose weekly_schedule has length 8 and
whose saved_plan_id is a positive integer. -/
theorem end_to_end_scenario_a :
    (runGenerate scenarioAEnv emptyDb 1 scenarioAReq).envelope.code = 0 ∧
    ((runGenerate scenarioAEnv emptyDb 1 scenarioAReq).envelope.data.map
      (fun pd => pd.weekly_schedule.length)) = some 8 ∧
    ∃ id, ((runGenerate scenarioAEnv emptyDb 1 scenarioAReq).envelope.data.bind
      (fun pd => pd.saved_plan_id)) = some id ∧ 0 < id :=
  ⟨by decide, by decide, 1, by decide, by decide⟩

/-! ## The per-request state machine (C7) -/

/-- C7: the workflow's phase sequence is a path of the step relation; every
step strictly increases the forward rank (so no backward and no retry
transition exists); Done and Failed are terminal; and from every non-terminal
phase some Failed(reason) is reachable in one step. -/
theorem workflow_state_machine_forward :
    (∀ env db uid req, List.Chain' Step (runGenerate env db uid req).trace) ∧
    (∀ p q, Step p q → p.rank < q.rank) ∧
    (∀ e q, ¬ Step (.failed e) q) ∧
    (∀ q, ¬ Step .done q) ∧
    (∀ p, (∀ e, p ≠ .failed e) → p ≠ .done → ∃ e, Step p (.failed e)) := by
  refine ⟨?_, ?_, ?_, ?_, ?_⟩
  · intro env db uid req
    unfold runGenerate
    rcases hv : validateRequest req with _ | e <;> simp only [hv]
    · rcases hvend : env.vendor req with raw | _ | _ <;> simp only [hvend]
      · rcases hp : parsePlan raw with e | plan <;> simp only [hp]
        · have he := parsePlan_eq_error raw e hp
          subst he
          exact List.Chain'.cons Step.validateOk
            (List.Chain'.cons Step.callOk
              (List.Chain'.cons Step.parseFail (List.chain'_singleton _)))
        · by_cases hs : env.storageFails <;> simp only [hs, if_true, if_false]
          · exact List.Chain'.cons Step.validateOk
              (List.Chain'.cons Step.callOk
                (List.Chain'.cons Step.parseOk
                  (List.Chain'.cons Step.persistFail (List.chain'_singleton _))))
          · exact List.Chain'.cons Step.validateOk
              (List.Chain'.cons Step.callOk
                (List.Chain'.cons Step.parseOk
                  (List.Chain'.cons Step.persistOk (List.chain'_singleton _))))
      · exact List.Chain'.cons Step.validateOk
          (List.Chain'.cons Step.callServiceFail (List.chain'_singleton _))
      · exact List.Chain'.cons Step.validateOk
          (List.Chain'.cons Step.callAuthFail (List.chain'_singleton _))
    · have he := validateRequest_eq_some req e hv
      subst he
      exact List.Chain'.cons Step.validateFail (List.chain'_singleton _)
  · intro p q h
    cases h <;> simp [Phase.rank]
  · intro e q h
    cases h
  · intro q h
    cases h
  · intro p h1 h2
    cases p with
    | validating => exact ⟨_, Step.validateFail⟩
    | callingAI => exact ⟨_, Step.callServiceFail⟩
    | parsing => exact ⟨_, Step.parseFail⟩
    | persisting => exact ⟨_, Step.persistFail⟩
    | done => exact absurd rfl h2
    | failed e => exact absurd rfl (h1 e)

/-- Witness for C7: the scenario-A run's trace is a chain of the step
relation, the validate-ok step moves strictly forward, and Validating can
fail in one step. -/
theorem workflow_state_machine_forward_witness :
    List.Chain' Step (runGenerate scenarioAEnv emptyDb 1 scenarioAReq).trace ∧
    Phase.rank .validating < Phase.rank .callingAI ∧
    ∃ e, Step .validating (.failed e) :=
  ⟨workflow_state_machine_forward.1 scenarioAEnv emptyDb 1 scenarioAReq,
   workflow_state_machine_forward.2.1 _ _ Step.validateOk,
   workflow_state_machine_forward.2.2.2.2 .validating
     (fun e => Phase.noConfusion) (Phase.noConfusion)⟩

/-! ## Error taxonomy (C8) -/

/-- C8: every error kind has a distinct non-zero envelope code; every kind is
actually surfaced by some run; and a storage failure after successful
generation yields the persistence-error code with the generated plan still in
the envelope data (saved_plan_id absent), distinguishable from generation
failure. -/
theorem error_taxonomy_distinct_surfaced :
    (∀ e : ErrKind, errCode e ≠ 0) ∧
    (∀ e e' : ErrKind, errCode e = errCode e' → e = e') ∧
    (∀ e : ErrKind, ∃ env db uid req,
        (runGenerate env db uid req).envelope.code = errCode e) ∧
    ((runGenerate storageFailEnv emptyDb 1 scenarioAReq).envelope.code =
        errCode .persistenceError ∧
      ∃ pd, (runGenerate storageFailEnv emptyDb 1 scenarioAReq).envelope.data =
          some pd ∧ pd.saved_plan_id = none ∧ pd.weekly_schedule.length = 8) := by
  refine ⟨?_, ?_, ?_, ?_⟩
  · intro e
    cases e <;> decide
  · intro e e' h
    cases e <;> cases e' <;> first | rfl | exact absurd h (by decide)
  · intro e
    cases e with
    | validationError =>
        exact ⟨scenarioAEnv, emptyDb, 1, ⟨"", "8 weeks", "beginner", 10, []⟩,
          by decide⟩
    | upstreamServiceError =>
        exact ⟨⟨fun _ => .serviceFailure, false⟩, emptyDb, 1, scenarioAReq,
          by decide⟩
    | upstreamAuthError =>
        exact ⟨⟨fun _ => .authFailure, false⟩, emptyDb, 1, scenarioAReq,
          by decide⟩
    | unparseableResponseError =>
        exact ⟨⟨fun _ => .ok .notJson, false⟩, emptyDb, 1, scenarioAReq,
          by decide⟩
    | persistenceError =>
        exact ⟨storageFailEnv, emptyDb, 1, scenarioAReq, by decide⟩
  · exact ⟨by decide, ⟨_, rfl, rfl, by decide⟩⟩

/-- Witness for C8: the validation-error code is non-zero, two equal codes
come from the same kind, and the persistence-error code is surfaced by a
concrete run. -/
theorem error_taxonomy_distinct_surfaced_witness :
    errCode .validationError ≠ 0 ∧
    ErrKind.validationError = ErrKind.validationError ∧
    ∃ env db uid req,
      (runGenerate env db uid req).envelope.code = errCode .persistenceError :=
  ⟨error_taxonomy_distinct_surfaced.1 .validationError,
   error_taxonomy_distinct_surfaced.2.1 .validationError .validationError rfl,
   error_taxonomy_distinct_surfaced.2.2.1 .persistenceError⟩

/-! ## The Authorization header (C9) -/

/-- C9 counterexample: when localStorage contains the empty string as
access_token, the interceptor adds no Authorization header even though a
token is stored — the stored value is falsy in JavaScript, so the claim's
"exactly when localStorage contains an access_token" fails. -/
theorem auth_header_empty_token_cx :
    (some "" : Option String).isSome = true ∧
    getHeader (requestInterceptor (some "") baseConfig).headers
      "Authorization" = none := by
  decide

/-- C9 (amended): a request carries `Authorization = "Bearer " ++ token`
exactly when a non-empty access_token is stored; when no token is stored, or
the stored token is the empty string, the configuration is left unchanged
(in particular no Authorization header is added). -/
theorem auth_header_iff_nonempty_token (storage : Option String)
    (config : AxiosConfig) :
    (∀ t, storage = some t → t ≠ "" →
      getHeader (requestInterceptor storage config).headers "Authorization" =
        some ("Bearer " ++ t)) ∧
    ((storage = none ∨ storage = some "") →
      requestInterceptor storage config = config) := by
  constructor
  · intro t ht hne
    subst ht
    simp [requestInterceptor, jsTruthyStr, hne, getHeader, setHeader,
      List.lookup]
  · rintro (h0 | h0) <;> subst h0 <;> simp [requestInterceptor, jsTruthyStr]

/-- Witness for C9: with the token "tok" stored, the header reads
"Bearer tok"; with the empty string stored, the base config is unchanged. -/
theorem auth_header_iff_nonempty_token_witness :
    getHeader (requestInterceptor (some "tok") baseConfig).headers
        "Authorization" = some ("Bearer " ++ "tok") ∧
    requestInterceptor (some "") baseConfig = baseConfig :=
  ⟨(auth_header_iff_nonempty_token (some "tok") baseConfig).1
      "tok" rfl (by decide),
   (auth_header_iff_nonempty_token (some "") baseConfig).2
      (Or.inr rfl)⟩

/-! ## The average-duration statistic (C10) -/

/-- The per-plan coercion always yields the finite number the claim
describes: missing or non-numeric values become 0. -/
lemma coerceDuration_eq_num (v : JsVal) :
    coerceDuration v = .num (toNumQ v) := by
  cases v with
  | num q =>
      by_cases hq : q = 0 <;>
        simp [coerceDuration, jsNullish, jsToNumber, jsOr, toNumQ, hq]
  | _ => simp [coerceDuration, jsNullish, jsToNumber, jsOr, toNumQ]

/-- The reduce over coerced durations is a finite number: the sum of the
numeric readings. -/
lemma sumDurations_eq_num (ds : List JsVal) :
    sumDurations ds = .num ((ds.map toNumQ).sum) := by
  suffices h : ∀ (l : List JsVal) (a : ℚ),
      l.foldl (fun acc v => jsAdd acc (coerceDuration v)) (.num a) =
        .num (a + (l.map toNumQ).sum) by
    simpa using h ds 0
  intro l
  induction l with
  | nil => intro a; simp
  | cons v rest ih =>
      intro a
      rw [List.foldl_cons, coerceDuration_eq_num v]
      show List.foldl _ (jsAdd (.num a) (.num (toNumQ v))) rest = _
      rw [show jsAdd (.num a) (.num (toNumQ v)) = .num (a + toNumQ v) from rfl,
        ih (a + toNumQ v)]
      simp [add_assoc]

/-- C10: the average-duration statistic is total — 0 on the empty plan list
(no division occurs), the rounded mean of the coerced durations on every
non-empty list, and never NaN. -/
theorem avg_duration_total_no_nan :
    avgDurationStat [] = .num 0 ∧
    (∀ ds : List JsVal, ds ≠ [] →
      avgDurationStat ds =
        .num ((⌊(ds.map toNumQ).sum / (ds.length : ℚ) + 1 / 2⌋ : ℤ) : ℚ)) ∧
    (∀ ds : List JsVal, avgDurationStat ds ≠ .nan) := by
  have hmain : ∀ ds : List JsVal, ds ≠ [] →
      avgDurationStat ds =
        .num ((⌊(ds.map toNumQ).sum / (ds.length : ℚ) + 1 / 2⌋ : ℤ) : ℚ) := by
    intro ds hne
    have hlen : 0 < ds.length := List.length_pos.mpr hne
    have hq : (ds.length : ℚ) ≠ 0 := by
      exact_mod_cast Nat.pos_iff_ne_zero.mp hlen
    unfold avgDurationStat
    rw [if_pos hlen, sumDurations_eq_num]
    show jsMathRound (jsDiv (.num _) (.num _)) = _
    rw [show jsDiv (.num ((ds.map toNumQ).sum)) (.num (ds.length : ℚ)) =
        .num ((ds.map toNumQ).sum / (ds.length : ℚ)) by
      simp [jsDiv, jsToNumber, hq]]
    rfl
  refine ⟨rfl, hmain, ?_⟩
  intro ds
  rcases eq_or_ne ds [] with h | h
  · subst h
    exact fun hc => JsVal.noConfusion hc
  · rw [hmain ds h]
    exact fun hc => JsVal.noConfusion hc

/-- Witness for C10: a list with one numeric and one missing duration
averages to round(3 / 2) = 2. -/
theorem avg_duration_total_no_nan_witness :
    [JsVal.num 3, JsVal.undef] ≠ [] ∧
    avgDurationStat [JsVal.num 3, JsVal.undef] =
      .num ((⌊([JsVal.num 3, JsVal.undef].map toNumQ).sum /
        (([JsVal.num 3, JsVal.undef] : List JsVal).length : ℚ) + 1 / 2⌋ : ℤ) : ℚ) :=
  ⟨by decide, avg_duration_total_no_nan.2.1 [JsVal.num 3, JsVal.undef] (by decide)⟩

end AiEdu
